import Mathlib

/-!
Shallow embedding of the ECG Arrhythmia Simulator (src/app.py) and proofs of
the specification claims about it.

The app delegates waveform synthesis to an external provider (neurokit2's
`ecg_simulate`); we model that provider as a parameter: a function from a
synthesis request to `Option (List Rat)`, where `none` models the provider
raising an exception.  The app's own logic — the rhythm catalog
(`ARRHYTHMIA_MAP`), the method-identifier resolution, the default heart-rate
rule, the heart-rate-slider disabling rule, the title composition, the fixed
sampling rate, the flat-zero fallback of `generate_ecg`, and the
`@st.cache_data` memoization — is embedded directly from the source.
-/

namespace EcgSim

/-- A synthesis request: the argument tuple of `generate_ecg` /
`nk.ecg_simulate` (duration, heart_rate, method, noise, sampling_rate).
Amplitudes and the noise level are modelled as rationals. -/
structure SynthesisRequest where
  duration : Nat
  heart_rate : Nat
  method : String
  noise : Rat
  sampling_rate : Nat
deriving DecidableEq

/-- Result of `generate_ecg`: the sample sequence, together with a flag
recording whether the non-fatal `st.error` warning was emitted (the
`except` branch of the source). -/
structure GenResult where
  samples : List Rat
  warned : Bool
deriving DecidableEq

/-- Method-identifier resolution from `generate_ecg`:
`simulation_method = "ecgsyn" if method == "normal" else method`. -/
def resolveMethod (method : String) : String :=
  if method == "normal" then "ecgsyn" else method

/-- The request actually dispatched to the provider by `generate_ecg`:
the caller's tuple with the method identifier resolved. -/
def dispatch_request (duration heart_rate : Nat) (method : String) (noise : Rat)
    (sampling_rate : Nat) : SynthesisRequest :=
  ⟨duration, heart_rate, resolveMethod method, noise, sampling_rate⟩

/-- Embedding of `generate_ecg` (src/app.py lines 16-38), parametric in the
external provider.  On provider success the samples are returned as-is
(no warning); on provider failure (`none`, modelling the `except Exception`
branch) a visible warning is recorded and a flat-zero sequence
`np.zeros(duration * sampling_rate)` is returned. -/
def generate_ecg (provider : SynthesisRequest → Option (List Rat))
    (duration heart_rate : Nat) (method : String) (noise : Rat)
    (sampling_rate : Nat) : GenResult :=
  match provider (dispatch_request duration heart_rate method noise sampling_rate) with
  | some samples => ⟨samples, false⟩
  | none => ⟨List.replicate (duration * sampling_rate) 0, true⟩

/-- The rhythm catalog `ARRHYTHMIA_MAP` (src/app.py lines 72-92), in source
order: label ↦ neurokit2 method key. -/
def ARRHYTHMIA_MAP : List (String × String) :=
  [("Normal Sinus Rhythm", "normal"),
   ("Premature Atrial Contraction (PAC)", "pac"),
   ("Premature Ventricular Contraction (PVC)", "pvc"),
   ("Atrial Fibrillation (AFib)", "afib"),
   ("Atrial Flutter (AFL)", "afl"),
   ("Supraventricular Tachycardia (SVT/PSVT)", "svt"),
   ("Ventricular Tachycardia (VT)", "vt"),
   ("Ventricular Fibrillation (VF)", "vf"),
   ("1st-Degree AV Block", "avb1"),
   ("2nd-Degree AV Block (Wenckebach)", "avb2"),
   ("3rd-Degree (Complete) AV Block", "avb3")]

/-- Lookup `ARRHYTHMIA_MAP[selected_arrhythmia_name]`. -/
def method_of (name : String) : String :=
  ((ARRHYTHMIA_MAP.find? (fun p => p.1 == name)).map Prod.snd).getD ""

/-- Helper for Python's `in` on strings: does `pat` occur contiguously in
`s`?  Defined on the character lists. -/
def containsFrom (pat s : List Char) : Bool :=
  match s with
  | [] => pat.isEmpty
  | _ :: rest => pat.isPrefixOf s || containsFrom pat rest

/-- Python's substring test `pat in s`. -/
def strContains (s pat : String) : Bool :=
  containsFrom pat.data s.data

/-- Default heart-rate rule (src/app.py lines 117-125): an if/elif chain of
substring tests on the selected label. -/
def default_hr (selected_arrhythmia_name : String) : Nat :=
  if strContains selected_arrhythmia_name "AFib" then 90
  else if strContains selected_arrhythmia_name "SVT" then 160
  else if strContains selected_arrhythmia_name "VT" then 180
  else if strContains selected_arrhythmia_name "Block" ||
          strContains selected_arrhythmia_name "Bradycardia" then 50
  else 70

/-- Heart-rate slider disabling rule (src/app.py line 128):
`hr_slider_disabled = (method_key == "vf")`. -/
def hr_slider_disabled (method_key : String) : Bool :=
  method_key == "vf"

/-- The fixed sampling-rate constant (src/app.py line 147). -/
def SAMPLING_RATE : Nat := 1000

/-- The `hr_text` expression (src/app.py line 162). -/
def hr_text (disabled : Bool) (heart_rate : Nat) : String :=
  if disabled then "" else "HR: " ++ toString heart_rate ++ " BPM"

/-- The `plot_title` expression (src/app.py line 163). -/
def plot_title (selected_arrhythmia_name ht : String) : String :=
  "Simulated ECG: " ++ selected_arrhythmia_name ++ " (" ++ ht ++ ")"

/-- One rhythm catalog entry as the spec's `RhythmDescriptor`: assembled
from the source's `ARRHYTHMIA_MAP`, `default_hr` and `hr_slider_disabled`. -/
structure RhythmDescriptor where
  label : String
  methodId : String
  defaultHeartRate : Nat
  heartRateControllable : Bool
deriving DecidableEq

/-- The catalog as descriptors, in `ARRHYTHMIA_MAP` order. -/
def listRhythms : List RhythmDescriptor :=
  ARRHYTHMIA_MAP.map (fun p => ⟨p.1, p.2, default_hr p.1, !(hr_slider_disabled p.2)⟩)

/-- The request the main page (src/app.py lines 153-159) dispatches to the
provider: user inputs plus the fixed `SAMPLING_RATE`, method resolved. -/
def app_dispatch (selected : String) (duration heart_rate : Nat) (noise : Rat) :
    SynthesisRequest :=
  dispatch_request duration heart_rate (method_of selected) noise SAMPLING_RATE

/-- What the main page produces: the generated signal and the plot title. -/
structure AppOutput where
  signal : GenResult
  title : String

/-- The main-page logic (src/app.py lines 150-166): look the method key up,
generate the signal at the fixed sampling rate, and compose the title. -/
def app_render (provider : SynthesisRequest → Option (List Rat))
    (selected : String) (duration heart_rate : Nat) (noise : Rat) : AppOutput :=
  ⟨generate_ecg provider duration heart_rate (method_of selected) noise SAMPLING_RATE,
   plot_title selected (hr_text (hr_slider_disabled (method_of selected)) heart_rate)⟩

/-- Lower bound of the duration slider (src/app.py line 111). -/
def duration_min : Int := 5

/-- Upper bound of the duration slider (src/app.py line 112). -/
def duration_max : Int := 30

/-- Lower bound of the heart-rate slider (src/app.py line 132). -/
def heart_rate_min : Int := 30

/-- Upper bound of the heart-rate slider (src/app.py line 133). -/
def heart_rate_max : Int := 220

/-- Lower bound of the noise slider (src/app.py line 140). -/
def noise_min : Rat := 0

/-- Upper bound of the noise slider (src/app.py line 141). -/
def noise_max : Rat := 1/2

/-- The spec's validation failure for an out-of-bounds numeric input. -/
inductive ValidationError where
  | durationOutOfBounds
  | heartRateOutOfBounds
  | noiseOutOfBounds
deriving DecidableEq

/-- Modelled from the spec: the Signal Request Builder `buildRequest`
(spec §4.2) does not exist as a function in src/app.py — the source enforces
the same numeric bounds only through its slider configurations (min_value /
max_value, embedded above as the six bound constants).  Following the spec's
words, it fails with a `ValidationError` when any numeric input is outside
its declared bound, and otherwise assembles the request with the resolved
method identifier and the fixed sampling rate. -/
def buildRequest (descriptor : RhythmDescriptor) (durationSeconds heartRateBpm : Int)
    (noiseLevel : Rat) : Except ValidationError SynthesisRequest :=
  if durationSeconds < duration_min ∨ duration_max < durationSeconds then
    .error .durationOutOfBounds
  else if heartRateBpm < heart_rate_min ∨ heart_rate_max < heartRateBpm then
    .error .heartRateOutOfBounds
  else if noiseLevel < noise_min ∨ noise_max < noiseLevel then
    .error .noiseOutOfBounds
  else
    .ok ⟨durationSeconds.toNat, heartRateBpm.toNat, resolveMethod descriptor.methodId,
         noiseLevel, SAMPLING_RATE⟩

/-- Did a `buildRequest` call succeed? -/
def reqOk (r : Except ValidationError SynthesisRequest) : Bool :=
  match r with
  | .ok _ => true
  | .error _ => false

/-- State of the `@st.cache_data` memoization of `generate_ecg`: the cache
contents (keyed by the full argument tuple) and the number of underlying
(non-cached) computations performed so far.  The call counter feeds the
stochastic provider, modelling provider randomness across invocations. -/
structure CacheState where
  lookup : SynthesisRequest → Option GenResult
  calls : Nat

/-- The cache at process start: empty, no calls made. -/
def emptyCache : CacheState :=
  ⟨fun _ => none, 0⟩

/-- Embedding of the `@st.cache_data`-decorated `generate_ecg`: on a hit for
the full argument tuple the cached result is returned and the provider is
not consulted; on a miss the body of `generate_ecg` runs against the
provider's current invocation (index `st.calls`) and the result is stored. -/
def cached_generate (provider : Nat → SynthesisRequest → Option (List Rat))
    (st : CacheState) (duration heart_rate : Nat) (method : String) (noise : Rat)
    (sampling_rate : Nat) : GenResult × CacheState :=
  match st.lookup ⟨duration, heart_rate, method, noise, sampling_rate⟩ with
  | some cached => (cached, st)
  | none =>
    (generate_ecg (provider st.calls) duration heart_rate method noise sampling_rate,
     ⟨fun r =>
        if r = ⟨duration, heart_rate, method, noise, sampling_rate⟩ then
          some (generate_ecg (provider st.calls) duration heart_rate method noise
                  sampling_rate)
        else st.lookup r,
      st.calls + 1⟩)

/-- C1: if the provider fails on a synthesis call, the failure is not
propagated: the app's signal is the flat-zero sequence of length
durationSeconds * samplingRateHz with the visible warning recorded, and the
title is unchanged (it does not depend on the provider at all). -/
theorem fallback_on_provider_failure (provider : SynthesisRequest → Option (List Rat))
    (selected : String) (duration heart_rate : Nat) (noise : Rat)
    (hfail : provider (app_dispatch selected duration heart_rate noise) = none) :
    (app_render provider selected duration heart_rate noise).signal =
      ⟨List.replicate (duration * SAMPLING_RATE) 0, true⟩ ∧
    ∀ provider2 : SynthesisRequest → Option (List Rat),
      (app_render provider selected duration heart_rate noise).title =
        (app_render provider2 selected duration heart_rate noise).title := by
  constructor
  · show generate_ecg provider duration heart_rate (method_of selected) noise
        SAMPLING_RATE = _
    unfold generate_ecg
    rw [show dispatch_request duration heart_rate (method_of selected) noise
          SAMPLING_RATE = app_dispatch selected duration heart_rate noise from rfl,
        hfail]
  · intro p2
    rfl

/-- Witness for C1: the always-failing provider at duration 10 yields the
10 * 1000 flat-zero signal with the warning, and the same title as a
succeeding provider. -/
theorem fallback_on_provider_failure_witness :
    (app_render (fun _ => none) "Atrial Fibrillation (AFib)" 10 90 (1/10)).signal =
      ⟨List.replicate (10 * SAMPLING_RATE) 0, true⟩ ∧
    (app_render (fun _ => none) "Atrial Fibrillation (AFib)" 10 90 (1/10)).title =
      (app_render (fun _ => some [1]) "Atrial Fibrillation (AFib)" 10 90 (1/10)).title := by
  have h := fallback_on_provider_failure (fun _ => none)
    "Atrial Fibrillation (AFib)" 10 90 (1/10) rfl
  exact ⟨h.1, h.2 (fun _ => some [1])⟩

/-- C2: building a request succeeds exactly when every numeric input is
within its declared bound (duration in [5, 30], heart rate in [30, 220],
noise in [0, 1/2]); outside it fails with a `ValidationError`, and there are
no other failure modes. -/
theorem buildRequest_bounds (d : RhythmDescriptor) (dur hr : Int) (n : Rat) :
    reqOk (buildRequest d dur hr n) =
      decide (5 ≤ dur ∧ dur ≤ 30 ∧ 30 ≤ hr ∧ hr ≤ 220 ∧ 0 ≤ n ∧ n ≤ 1/2) := by
  simp only [buildRequest, duration_min, duration_max, heart_rate_min, heart_rate_max,
    noise_min, noise_max]
  by_cases h1 : dur < 5 ∨ 30 < dur
  · rw [if_pos h1]
    show false = _
    symm
    rw [decide_eq_false_iff_not]
    rintro ⟨ha, hb, -, -, -, -⟩
    rcases h1 with h1 | h1 <;> omega
  · rw [if_neg h1]
    by_cases h2 : hr < 30 ∨ 220 < hr
    · rw [if_pos h2]
      show false = _
      symm
      rw [decide_eq_false_iff_not]
      rintro ⟨-, -, ha, hb, -, -⟩
      rcases h2 with h2 | h2 <;> omega
    · rw [if_neg h2]
      by_cases h3 : n < 0 ∨ 1/2 < n
      · rw [if_pos h3]
        show false = _
        symm
        rw [decide_eq_false_iff_not]
        rintro ⟨-, -, -, -, ha, hb⟩
        rcases h3 with h3 | h3 <;> linarith
      · rw [if_neg h3]
        show true = _
        symm
        rw [decide_eq_true_eq]
        push_neg at h1 h2 h3
        exact ⟨h1.1, h1.2, h2.1, h2.2, h3.1, h3.2⟩

/-- C6: for every valid request the synthesized sample sequence has length
exactly durationSeconds * 1000, on the provider-success path (given the
provider's length contract from the spec) and on the fallback path alike. -/
theorem synthesize_length (provider : SynthesisRequest → Option (List Rat))
    (hp : ∀ req out, provider req = some out →
      out.length = req.duration * req.sampling_rate)
    (duration heart_rate : Nat) (method : String) (noise : Rat)
    (_hd1 : 5 ≤ duration) (_hd2 : duration ≤ 30)
    (_hh1 : 30 ≤ heart_rate) (_hh2 : heart_rate ≤ 220)
    (_hn1 : 0 ≤ noise) (_hn2 : noise ≤ 1/2) :
    (generate_ecg provider duration heart_rate method noise 1000).samples.length =
      duration * 1000 := by
  unfold generate_ecg
  cases hcall : provider (dispatch_request duration heart_rate method noise 1000) with
  | some s => simpa [dispatch_request] using hp _ s hcall
  | none => simp

/-- Witness for C6: a length-respecting provider at a concrete valid
request yields 10 * 1000 samples. -/
theorem synthesize_length_witness :
    (generate_ecg (fun req => some (List.replicate (req.duration * req.sampling_rate) 0))
        10 70 "afib" (1/10) 1000).samples.length = 10 * 1000 :=
  synthesize_length _
    (fun req out hout => by
      injection hout with h
      rw [← h]
      simp)
    10 70 "afib" (1/10) (by decide) (by decide) (by decide) (by decide)
    (by norm_num) (by norm_num)

/-- C10: within one session the memoized generator is deterministic on its
full argument tuple: a second call with equal arguments returns the first
call's result and performs no further provider computation, even though the
provider may differ between invocations; and the memoization key includes
the heart rate even for the rate-uncontrollable "vf" method, so two "vf"
calls differing only in heart rate both reach the provider. -/
theorem cached_generate_deterministic (provider : Nat → SynthesisRequest → Option (List Rat))
    (st : CacheState) (duration heart_rate : Nat) (method : String) (noise : Rat)
    (sampling_rate : Nat) :
    ((cached_generate provider
        (cached_generate provider st duration heart_rate method noise sampling_rate).2
        duration heart_rate method noise sampling_rate).1 =
      (cached_generate provider st duration heart_rate method noise sampling_rate).1 ∧
     (cached_generate provider
        (cached_generate provider st duration heart_rate method noise sampling_rate).2
        duration heart_rate method noise sampling_rate).2.calls =
      (cached_generate provider st duration heart_rate method noise sampling_rate).2.calls) ∧
    (∀ h1 h2 : Nat, h1 ≠ h2 →
      (cached_generate provider
        (cached_generate provider emptyCache duration h1 "vf" noise sampling_rate).2
        duration h2 "vf" noise sampling_rate).2.calls = 2) := by
  constructor
  · cases hlook : st.lookup ⟨duration, heart_rate, method, noise, sampling_rate⟩ with
    | some c => simp [cached_generate, hlook]
    | none => simp [cached_generate, hlook]
  · intro h1 h2 hne
    have hlook1 : emptyCache.lookup ⟨duration, h1, "vf", noise, sampling_rate⟩ = none := rfl
    simp [cached_generate, hlook1, emptyCache, SynthesisRequest.mk.injEq, Ne.symm hne]

/-- Witness for C10 at a concrete provider, tuple and heart-rate pair. -/
theorem cached_generate_deterministic_witness :
    ((cached_generate (fun _ _ => none)
        (cached_generate (fun _ _ => none) emptyCache 10 70 "afib" (1/10) 1000).2
        10 70 "afib" (1/10) 1000).1 =
      (cached_generate (fun _ _ => none) emptyCache 10 70 "afib" (1/10) 1000).1) ∧
    (cached_generate (fun _ _ => none)
        (cached_generate (fun _ _ => none) emptyCache 10 50 "vf" (1/10) 1000).2
        10 60 "vf" (1/10) 1000).2.calls = 2 := by
  have h := cached_generate_deterministic (fun _ _ => none) emptyCache 10 70 "afib"
    (1/10) 1000
  exact ⟨h.1.1, h.2 50 60 (by decide)⟩

/-- C3: when the selected rhythm's catalog method identifier is "normal",
the identifier sent to the provider is "ecgsyn" (never the literal "normal");
every other method identifier is passed through unchanged. -/
theorem resolveMethod_normal_to_ecgsyn (m : String) (hm : m ≠ "normal") :
    resolveMethod "normal" = "ecgsyn" ∧ "ecgsyn" ≠ "normal" ∧ resolveMethod m = m := by
  refine ⟨rfl, by decide, ?_⟩
  simp [resolveMethod, hm]

/-- Witness for C3 at the concrete non-normal identifier "afib". -/
theorem resolveMethod_normal_to_ecgsyn_witness :
    resolveMethod "normal" = "ecgsyn" ∧ "ecgsyn" ≠ "normal" ∧
      resolveMethod "afib" = "afib" :=
  resolveMethod_normal_to_ecgsyn "afib" (by decide)

/-- C4: for every label in the rhythm catalog the default heart rate matches
the substring table (AFib → 90, else SVT → 160, else VT → 180, else Block or
Bradycardia → 50, else 70); in particular "Ventricular Tachycardia (VT)" gets
180, "1st-Degree AV Block" gets 50 and "Normal Sinus Rhythm" gets 70. -/
theorem default_hr_matches_table :
    (listRhythms.all (fun d => d.defaultHeartRate ==
      (if strContains d.label "AFib" then 90
       else if strContains d.label "SVT" then 160
       else if strContains d.label "VT" then 180
       else if strContains d.label "Block" || strContains d.label "Bradycardia" then 50
       else 70)) = true) ∧
    listRhythms.map (fun d => d.defaultHeartRate) =
      [70, 70, 70, 90, 70, 160, 180, 70, 50, 50, 50] ∧
    default_hr "Ventricular Tachycardia (VT)" = 180 ∧
    default_hr "1st-Degree AV Block" = 50 ∧
    default_hr "Normal Sinus Rhythm" = 70 := by
  refine ⟨by decide, by decide, by decide, by decide, by decide⟩

/-- C5: the title is "Simulated ECG: {label} ({hrText})" with hrText empty
when the heart rate is not controllable and "HR: {bpm} BPM" otherwise; for
"Atrial Fibrillation (AFib)" at 95 BPM the title is the exact expected
string, and for "Ventricular Fibrillation (VF)" the title has no "HR:"
fragment. -/
theorem title_composition :
    (∀ (selected : String) (heart_rate : Nat) (disabled : Bool),
      plot_title selected (hr_text disabled heart_rate) =
        "Simulated ECG: " ++ selected ++ " (" ++
          (if disabled then "" else "HR: " ++ toString heart_rate ++ " BPM") ++ ")") ∧
    (app_render (fun _ => none) "Atrial Fibrillation (AFib)" 10 95 (1/10)).title =
      "Simulated ECG: Atrial Fibrillation (AFib) (HR: 95 BPM)" ∧
    strContains
      (app_render (fun _ => none) "Ventricular Fibrillation (VF)" 10 95 (1/10)).title
      "HR:" = false := by
  refine ⟨fun s h disabled => by cases disabled <;> rfl, by decide, by decide⟩

/-- C7: the catalog has exactly eleven rhythms with pairwise-distinct labels,
in the stable order Normal, PAC, PVC, AFib, AFL, SVT, VT, VF, avb1, avb2,
avb3. -/
theorem catalog_complete :
    ARRHYTHMIA_MAP.length = 11 ∧
    (ARRHYTHMIA_MAP.map Prod.fst).Nodup ∧
    ARRHYTHMIA_MAP.map Prod.fst =
      ["Normal Sinus Rhythm",
       "Premature Atrial Contraction (PAC)",
       "Premature Ventricular Contraction (PVC)",
       "Atrial Fibrillation (AFib)",
       "Atrial Flutter (AFL)",
       "Supraventricular Tachycardia (SVT/PSVT)",
       "Ventricular Tachycardia (VT)",
       "Ventricular Fibrillation (VF)",
       "1st-Degree AV Block",
       "2nd-Degree AV Block (Wenckebach)",
       "3rd-Degree (Complete) AV Block"] ∧
    ARRHYTHMIA_MAP.map Prod.snd =
      ["normal", "pac", "pvc", "afib", "afl", "svt", "vt", "vf",
       "avb1", "avb2", "avb3"] := by
  refine ⟨rfl, by decide, rfl, rfl⟩

/-- C8: heart-rate control is disabled exactly for the method identifier
"vf": `heartRateControllable` is false only for the ventricular-fibrillation
entry and true for the other ten. -/
theorem hr_controllable_only_vf :
    (listRhythms.filter (fun d => !d.heartRateControllable)).map (fun d => d.label) =
      ["Ventricular Fibrillation (VF)"] ∧
    (listRhythms.filter (fun d => d.heartRateControllable)).length = 10 ∧
    listRhythms.all
      (fun d => d.heartRateControllable == !(hr_slider_disabled d.methodId)) = true := by
  refine ⟨by decide, by decide, by decide⟩

/-- C9: every request the app dispatches to the provider carries the fixed
process-wide sampling rate 1000: the constant is 1000, the dispatched
request's field is 1000 for all user inputs, and the main page always calls
`generate_ecg` at that rate. -/
theorem sampling_rate_fixed :
    SAMPLING_RATE = 1000 ∧
    (∀ (selected : String) (duration heart_rate : Nat) (noise : Rat),
      (app_dispatch selected duration heart_rate noise).sampling_rate = 1000) ∧
    (∀ (provider : SynthesisRequest → Option (List Rat)) (selected : String)
        (duration heart_rate : Nat) (noise : Rat),
      (app_render provider selected duration heart_rate noise).signal =
        generate_ecg provider duration heart_rate (method_of selected) noise 1000) := by
  exact ⟨rfl, fun _ _ _ _ => rfl, fun _ _ _ _ _ => rfl⟩

end EcgSim
